import Mathlib

/-!
Shallow embedding of `src/HasteModuleLoader/HasteModuleLoader.js` (the module
loader core of a JavaScript unit-testing framework).

External collaborators of the loader (the node `path`/`fs` libraries, the
`resolve` package, the resource map produced by node-haste, the evaluation
environment, the transformer and the module mocker) are modelled as fields of
an `Env` structure: they are opaque total functions supplied per scenario.
The loader functions themselves are translated line by line from the source.

JavaScript exceptions are modelled with `Except`; since an exception does not
roll back mutations, errors from stateful operations carry the loader state at
the moment of the throw.
-/

/-- Association-list lookup, modelling JavaScript object property read. -/
def alLookup {α : Type} (m : List (String × α)) (k : String) : Option α :=
  (m.find? (fun p => p.1 == k)).map (fun p => p.2)

/-- Association-list insert, modelling JavaScript object property write:
re-assigning an existing key keeps its position, a new key is appended. -/
def alInsert {α : Type} (m : List (String × α)) (k : String) (v : α) :
    List (String × α) :=
  if m.any (fun p => p.1 == k) then
    m.map (fun p => if p.1 == k then (k, v) else p)
  else
    m ++ [(k, v)]

theorem find?_overwrite_self {α : Type} (t : List (String × α)) (k : String) (v : α)
    (h : t.any (fun p => p.1 == k) = true) :
    (t.map (fun p => if p.1 == k then (k, v) else p)).find? (fun p => p.1 == k)
      = some (k, v) := by
  induction t with
  | nil => simp at h
  | cons p t ih =>
    simp only [List.any_cons, Bool.or_eq_true] at h
    simp only [List.map_cons]
    cases hp : (p.1 == k) with
    | true =>
      simp only [eq_self_iff_true, if_true]
      simp [List.find?_cons]
    | false =>
      rw [if_neg (by simp)]
      rw [List.find?_cons, hp]
      rcases h with h | h
      · exact absurd h (by simp [hp])
      · exact ih h

theorem find?_overwrite_ne {α : Type} (t : List (String × α)) (k k' : String) (v : α)
    (h : k' ≠ k) :
    (t.map (fun p => if p.1 == k then (k, v) else p)).find? (fun p => p.1 == k')
      = t.find? (fun p => p.1 == k') := by
  induction t with
  | nil => rfl
  | cons p t ih =>
    simp only [List.map_cons]
    cases hp : (p.1 == k) with
    | true =>
      have hpk : p.1 = k := eq_of_beq hp
      have h1 : ((k : String) == k') = false := by
        simp only [beq_eq_false_iff_ne]; exact fun hc => h hc.symm
      have h2 : (p.1 == k') = false := by rw [hpk]; exact h1
      simp only [eq_self_iff_true, if_true, List.find?_cons, h1, h2]
      exact ih
    | false =>
      rw [if_neg (by simp)]
      simp only [List.find?_cons]
      cases hq : (p.1 == k') with
      | true => rfl
      | false => exact ih

theorem find?_append_key {α : Type} (m : List (String × α)) (k k' : String) (v : α)
    (hm : m.any (fun p => p.1 == k) = false) :
    (m ++ [(k, v)]).find? (fun p => p.1 == k')
      = if k' = k then some (k, v) else m.find? (fun p => p.1 == k') := by
  induction m with
  | nil =>
    simp only [List.nil_append, List.find?_cons]
    by_cases h : k' = k
    · rw [if_pos h]
      simp [h]
    · rw [if_neg h]
      have hne : ((k : String) == k') = false := by
        simp only [beq_eq_false_iff_ne]; exact fun hc => h hc.symm
      simp [hne]
  | cons p t ih =>
    simp only [List.any_cons, Bool.or_eq_false_iff] at hm
    simp only [List.cons_append, List.find?_cons]
    cases hq : (p.1 == k') with
    | true =>
      have h : ¬ (k' = k) := by
        intro hc
        rw [hc] at hq
        rw [hq] at hm
        exact absurd hm.1 (by simp)
      rw [if_neg h]
    | false =>
      exact ih hm.2

theorem alLookup_alInsert_self {α : Type} (m : List (String × α)) (k : String) (v : α) :
    alLookup (alInsert m k v) k = some v := by
  unfold alLookup alInsert
  by_cases h : m.any (fun p => p.1 == k) = true
  · rw [if_pos h, find?_overwrite_self m k v h]
    rfl
  · rw [if_neg h]
    rw [find?_append_key m k k v (Bool.not_eq_true _ ▸ h), if_pos rfl]
    rfl

theorem alLookup_alInsert_ne {α : Type} (m : List (String × α)) (k k' : String) (v : α)
    (h : k' ≠ k) : alLookup (alInsert m k v) k' = alLookup m k' := by
  unfold alLookup alInsert
  by_cases hm : m.any (fun p => p.1 == k) = true
  · rw [if_pos hm, find?_overwrite_ne m k k' v h]
  · rw [if_neg hm]
    rw [find?_append_key m k k' v (Bool.not_eq_true _ ▸ hm), if_neg h]

/-- True iff the association list has the key (`hasOwnProperty`). -/
def alHas {α : Type} (m : List (String × α)) (k : String) : Bool :=
  m.any (fun p => p.1 == k)

theorem alHas_iff_alLookup_isSome {α : Type} (m : List (String × α)) (k : String) :
    alHas m k = true ↔ (alLookup m k).isSome = true := by
  unfold alHas alLookup
  induction m with
  | nil => simp [List.find?]
  | cons p t ih =>
    by_cases hp : p.1 == k
    · simp [List.find?, hp]
    · simp [List.find?, hp, ih]

/-- JavaScript `String.prototype.indexOf` (returns -1 when absent, 0 for ""). -/
def strIndexOf (hay sub : String) : Int :=
  match (List.range (hay.data.length + 1)).find?
      (fun i => sub.data.isPrefixOf (hay.data.drop i)) with
  | some i => Int.ofNat i
  | none => -1

/-- `String.startsWith` over the character list (kernel-computable). -/
def strStartsWith (s p : String) : Bool := p.data.isPrefixOf s.data

/-- `String.endsWith` over the character list (kernel-computable). -/
def strEndsWith (s p : String) : Bool := p.data.isSuffixOf s.data

/-- `String.contains` over the character list (kernel-computable). -/
def strContainsChar (s : String) (c : Char) : Bool := s.data.contains c

/-- JavaScript `String.prototype.split` with a one-character separator
(kernel-computable; structural recursion on the character list). -/
def splitOnCharAux (c : Char) : List Char → List Char → List String
  | [], acc => [String.mk acc.reverse]
  | x :: xs, acc =>
    if x == c then String.mk acc.reverse :: splitOnCharAux c xs []
    else splitOnCharAux c xs (x :: acc)

/-- `s.split(c)` for a one-character separator. -/
def splitOnChar (s : String) (c : Char) : List String := splitOnCharAux c s.data []

/-- JavaScript `parts.join("/")` (kernel-computable). -/
def joinWithSlash : List String → String
  | [] => ""
  | [x] => x
  | x :: xs => x ++ "/" ++ joinWithSlash xs

/-- node `path.dirname` (POSIX). -/
def dirname (p : String) : String :=
  match p.data.reverse.dropWhile (fun c => c ≠ '/') with
  | [] => "."
  | _ :: beforeRev =>
    if beforeRev.isEmpty then "/" else String.mk beforeRev.reverse

/-- node `path.basename` (POSIX). -/
def basename (p : String) : String :=
  String.mk (p.data.reverse.takeWhile (fun c => c ≠ '/')).reverse

/-- node `path.extname` (POSIX): the suffix of the basename from its last dot;
empty when there is no dot or the dot is the first character. -/
def extname (p : String) : String :=
  let b := (basename p).data
  let afterRev := b.reverse.takeWhile (fun c => c ≠ '.')
  if afterRev.length == b.length then ""
  else if afterRev.length + 1 == b.length then ""
  else String.mk ('.' :: afterRev.reverse)

/-- node `path.join a b` for the `__mocks__` sibling check. -/
def pathJoin2 (a b : String) : String :=
  if strEndsWith a "/" then a ++ b else a ++ "/" ++ b

/-- node `path.delimiter` on POSIX (the single character `:`). -/
def pathDelimiter : String := ":"

/-- The regex `IS_PATH_BASED_MODULE_NAME = /^(?:\.\.?\/|\/)/`. -/
def isPathBasedModuleName (s : String) : Bool :=
  strStartsWith s "./" || strStartsWith s "../" || strStartsWith s "/"

/-- JavaScript string coercion of a nullable string (`null` prints "null"),
as happens in `moduleType + delimiter + realAbsPath + delimiter + mockAbsPath`. -/
def showNullable : Option String → String
  | some s => s
  | none => "null"

/-- Values living in the evaluation environment (module exports, mock
metadata, ...). Object contents are opaque to the loader, so a small
inductive with distinguishable atoms suffices. -/
inductive JsVal where
  | undef : JsVal
  | nullv : JsVal
  | boolv : Bool → JsVal
  | num : Int → JsVal
  | str : String → JsVal
  | obj : Nat → JsVal
  deriving DecidableEq, Repr

/-- A freshly allocated `{}` (the pre-allocated exports container). -/
def emptyExports : JsVal := JsVal.obj 0

/-- JavaScript exceptions thrown by the loader. `outOfFuel` is an artifact of
bounding the (in the source unbounded) resolver recursion; it is distinct from
every error the source can throw. -/
inductive JsError where
  | cannotFindModule : String → String → JsError
  | genericError : String → JsError
  | outOfFuel : JsError
  deriving DecidableEq, Repr

/-- A node-haste resource (read-only input to the loader).
`getModuleIDByOrigin`, when present, maps a required-module origin string to a
module id (`undefined`/falsy results keep the original string). -/
structure Resource where
  type : String
  id : String
  path : String
  dataName : String := ""
  dataMain : Option String := none
  requiredModules : List String := []
  getModuleIDByOrigin : Option (String → Option String) := none

/-- The read-only resource map (external collaborator). -/
structure ResourceMap where
  getResource : String → String → Option Resource
  getResourceByPath : String → Option Resource
  projectConfigurations : List Resource := []

/-- Host facilities external to the loader: `resolve` package, `fs`, the
transformer, the module mocker and the vendored runner path. `regexTest p s`
models `new RegExp(p).test(s)`. -/
structure Host where
  isCore : String → Bool := fun _ => false
  resolveSync : String → String → Option String := fun _ _ => none
  realpathSync : String → String := fun p => p
  existsSync : String → Bool := fun _ => false
  hostRequire : String → JsVal := fun _ => JsVal.undef
  readJsonFile : String → JsVal := fun _ => JsVal.undef
  regexTest : String → String → Bool := fun _ _ => false
  transform : String → Except JsError String := fun _ => Except.ok ""
  getMetadata : JsVal → JsVal := fun _ => JsVal.obj 1
  generateFromMetadata : JsVal → JsVal := fun _ => JsVal.obj 2
  vendorPath : String := "/jest/vendor"

/-- The per-test configuration slice the modelled functions read. -/
structure Config where
  unmockedModulePathPatterns : List String := []
  moduleNameMapper : List (String × String) := []
  collectCoverage : Bool := false
  collectCoverageOnlyFrom : Option (List String) := none

/-- All read-only inputs of a loader instance. -/
structure Env where
  host : Host
  rm : ResourceMap
  config : Config

/-- One enumerable property of the environment global, as inspected by
`resetModuleRegistry`: its type class, whether it is a mock function, and its
recorded calls. -/
structure GlobalProp where
  isObjOrFn : Bool
  isMockFunction : Bool
  mockCalls : List Nat := []
  deriving DecidableEq, Repr

/-- The environment global object (absent once the environment is torn down).
`mockClearTimersInvoked` records the observable effect of calling the
`mockClearTimers` hook. -/
structure GlobalObj where
  props : List (String × GlobalProp) := []
  hasMockClearTimers : Bool := false
  mockClearTimersInvoked : Bool := false
  deriving DecidableEq, Repr

/-- A module record: `{__filename, exports}` (the parent/require fields set by
`_execModule` are not tracked; no modelled observation reads them). -/
structure ModuleRecord where
  filename : String
  exports : JsVal
  deriving DecidableEq, Repr

/-- The mutable fields of the Loader instance plus the environment global. -/
structure LoaderState where
  currentlyExecutingModulePath : String := ""
  isCurrentlyExecutingManualMock : Option String := none
  explicitShouldMock : List (String × Bool) := []
  explicitlySetMocks : List (String × JsVal) := []
  shouldAutoMock : Bool := true
  configShouldMockModuleNames : List (String × Bool) := []
  moduleRegistry : List (String × ModuleRecord) := []
  mockRegistry : List (String × JsVal) := []
  mockMetaDataCache : List (String × JsVal) := []
  coverageCollectors : List (String × String) := []
  globalObj : Option GlobalObj := some {}
  deriving DecidableEq, Repr

/-- `this._mappedModuleNames`: built in the constructor by
`moduleNameMapper.forEach(map => mapped[map[1]] = new RegExp(map[0]))`,
i.e. an object keyed by canonical name holding the pattern; a repeated
canonical name overwrites the pattern in place. -/
def mappedModuleNames (mapper : List (String × String)) : List (String × String) :=
  mapper.foldl (fun acc m => alInsert acc m.2 m.1) []

/-- `_resolveStubModuleName`: iterate the mapped-name object keys in order and
return the first canonical name whose pattern tests true on the module name
(`undefined` when none matches). -/
def _resolveStubModuleName (E : Env) (moduleName : String) : Option String :=
  ((mappedModuleNames E.config.moduleNameMapper).find?
    (fun p => E.host.regexTest p.2 moduleName)).map (fun p => p.1)

/-- `_getResource`: raw resource-map lookup, then the `.js`-suffix retry for
JS names containing a slash, then the name-mapper fallback for missed JSMock
lookups (a falsy mapped name skips the lookup). -/
def _getResource (E : Env) (resourceType resourceName : String) : Option Resource :=
  let r0 := E.rm.getResource resourceType resourceName
  let r1 := match r0 with
    | some r => some r
    | none =>
      if resourceType == "JS" && strContainsChar resourceName '/' &&
          !(strEndsWith resourceName ".js") then
        E.rm.getResource resourceType (resourceName ++ ".js")
      else none
  match r1 with
  | some r => some r
  | none =>
    if resourceType == "JSMock" then
      match _resolveStubModuleName E resourceName with
      | some mappedName =>
        if mappedName == "" then none else E.rm.getResource "JS" mappedName
      | none => none
    else none

/-- The memoized `_nodeModuleProjectConfigNameToResource` map, computed
directly from the resource map (the memoization is observationally pure):
`resources.forEach(res => map[res.data.name] = res)`, so the last resource
with a given name wins. -/
def projectConfigFor (E : Env) (name : String) : Option Resource :=
  E.rm.projectConfigurations.reverse.find? (fun r => r.dataName == name)

/-- `_nodeModuleNameToPath`, with the mutual recursion into
`_moduleNameToPath` abstracted as `recurse`. -/
def _nodeModuleNameToPathAux (recurse : String → String → Except JsError String)
    (E : Env) (currPath moduleName : String) : Except JsError String :=
  let basedir := dirname currPath
  let parts :=
    if strContainsChar moduleName '/' then
      let projectPathParts := splitOnChar moduleName '/'
      (projectPathParts.headD "", some (joinWithSlash projectPathParts.tail))
    else (moduleName, (none : Option String))
  let moduleProjectPart := parts.1
  let subModulePath := parts.2
  match E.host.resolveSync basedir moduleName with
  | some p => Except.ok p
  | none =>
    let resolveError := JsError.cannotFindModule moduleName
      (if currPath == "" then "." else currPath)
    match projectConfigFor E moduleProjectPart with
    | none => Except.error resolveError
    | some resource =>
      let resourceDirname := dirname resource.path
      if strIndexOf resourceDirname basedir > 0 then Except.error resolveError
      else
        let sub := match subModulePath with
          | some s => s
          | none => resource.dataMain.getD "index.js"
        recurse resource.path ("./" ++ sub)

/-- `_moduleNameToPath`: a JS resource hit yields its path, otherwise node
style resolution. `fuel` bounds the (unbounded in the source) recursion
through package-main redirection. -/
def _moduleNameToPathFuel : Nat → Env → String → String → Except JsError String
  | 0, _, _, _ => Except.error JsError.outOfFuel
  | Nat.succ fuel, E, currPath, moduleName =>
    match _getResource E "JS" moduleName with
    | some r => Except.ok r.path
    | none => _nodeModuleNameToPathAux (_moduleNameToPathFuel fuel E) E currPath moduleName

/-- `_getNormalizedModuleID`: the string-encoded ModuleID
`moduleType ++ delimiter ++ realAbsPath ++ delimiter ++ mockAbsPath` in which
an absent path stringifies as "null". The `absolutePath === undefined` guard
of the source is subsumed by the error case of `_moduleNameToPathFuel`. -/
def _getNormalizedModuleID (fuel : Nat) (E : Env) (currPath moduleName : String) :
    Except JsError String :=
  if E.host.isCore moduleName then
    Except.ok ("node" ++ pathDelimiter ++ showNullable (some moduleName) ++
      pathDelimiter ++ showNullable none)
  else
    let step : Except JsError (Option String × Option String × String) :=
      if isPathBasedModuleName moduleName ||
          ((_getResource E "JS" moduleName).isNone &&
           (_getResource E "JSMock" moduleName).isNone) then
        match _moduleNameToPathFuel fuel E currPath moduleName with
        | Except.error e => Except.error e
        | Except.ok absolutePath =>
          match E.rm.getResourceByPath absolutePath with
          | some resource =>
            if resource.type == "JS" then
              Except.ok (some absolutePath, none, resource.id)
            else if resource.type == "JSMock" then
              Except.ok (none, some absolutePath, resource.id)
            else
              Except.ok (none, none, resource.id)
          | none => Except.ok (none, none, moduleName)
      else
        Except.ok (none, none, moduleName)
    match step with
    | Except.error e => Except.error e
    | Except.ok (realAbsPath0, mockAbsPath0, moduleName1) =>
      let realAbsPath := match realAbsPath0 with
        | some p => some p
        | none => (_getResource E "JS" moduleName1).map (fun r => r.path)
      let mockAbsPath := match mockAbsPath0 with
        | some p => some p
        | none => (_getResource E "JSMock" moduleName1).map (fun r => r.path)
      Except.ok ("user" ++ pathDelimiter ++ showNullable realAbsPath ++
        pathDelimiter ++ showNullable mockAbsPath)

/-- `_getRealPathFromNormalizedModuleID`: `moduleID.split(path.delimiter)[1]`.
Every ID produced by `_getNormalizedModuleID` contains two delimiters, so the
out-of-range default is never reached. -/
def _getRealPathFromNormalizedModuleID (moduleID : String) : String :=
  match splitOnChar moduleID ':' with
  | _ :: x :: _ => x
  | _ => "undefined"

/-- `_getDependencyPathsFromResource`: map each required module through
`getModuleIDByOrigin` (falsy results keep the original), normalize, swallow
normalization errors, and recover the "real path" slot of the ID string. -/
def _getDependencyPathsFromResource (fuel : Nat) (E : Env) (resource : Resource) :
    List String :=
  resource.requiredModules.foldl (fun acc requiredModule0 =>
    let requiredModule := match resource.getModuleIDByOrigin with
      | some f =>
        match f requiredModule0 with
        | some v => if v == "" then requiredModule0 else v
        | none => requiredModule0
      | none => requiredModule0
    match _getNormalizedModuleID fuel E resource.path requiredModule with
    | Except.error _ => acc
    | Except.ok moduleID => acc ++ [_getRealPathFromNormalizedModuleID moduleID]) []

/-- `getDependenciesFromPath`. -/
def getDependenciesFromPath (fuel : Nat) (E : Env) (modulePath : String) :
    Except JsError (List String) :=
  match E.rm.getResourceByPath modulePath with
  | none => Except.error (JsError.genericError ("Unknown modulePath: " ++ modulePath))
  | some resource =>
    if resource.type == "ProjectConfiguration" || resource.type == "Resource" then
      Except.error (JsError.genericError
        "Could not extract dependency information from this type of file!")
    else
      Except.ok (_getDependencyPathsFromResource fuel E resource)

/-- The module top-level code as evaluated by the Environment: from the file
name, the exports object handed to the wrapper and the loader state, it
produces (effects on the state, the final `module.exports`) or throws. It
stands for `runSourceText` plus `wrapperFunc.call` of `_execModule`. -/
def BodyFun : Type :=
  String → JsVal → LoaderState → Except (JsError × LoaderState) (LoaderState × JsVal)

/-- `_execModule`: the Executor. Torn-down environment is a no-op; transform
runs (and may throw) before the per-module state is saved; the previously
executing module path and manual-mock flag are saved, set to this file, and
written back only on the normal path — the source has no try/finally, so a
throwing body propagates with the state as the body left it. The `parent` and
`require` assignments are not tracked (nothing modelled reads them). -/
def _execModule (E : Env) (body : BodyFun) (moduleObj : ModuleRecord) (s : LoaderState) :
    Except (JsError × LoaderState) (ModuleRecord × LoaderState) :=
  if s.globalObj.isNone then Except.ok (moduleObj, s)
  else
    let filename := moduleObj.filename
    match E.host.transform filename with
    | Except.error e => Except.error (e, s)
    | Except.ok moduleContent =>
      let onlyFrom := E.config.collectCoverageOnlyFrom
      let hasOnlyCollectFrom := match onlyFrom with
        | some l => !l.isEmpty
        | none => false
      let shouldCollectCoverage :=
        (E.config.collectCoverage && !hasOnlyCollectFrom) ||
        (hasOnlyCollectFrom && (onlyFrom.getD []).contains filename)
      let s := if shouldCollectCoverage && !(alHas s.coverageCollectors filename) then
          { s with coverageCollectors := alInsert s.coverageCollectors filename moduleContent }
        else s
      let lastExecutingModulePath := s.currentlyExecutingModulePath
      let origCurrExecutingManualMock := s.isCurrentlyExecutingManualMock
      let s := { s with currentlyExecutingModulePath := filename,
                        isCurrentlyExecutingManualMock := some filename }
      match body filename moduleObj.exports s with
      | Except.error es => Except.error es
      | Except.ok (s1, newExports) =>
        let s2 := { s1 with isCurrentlyExecutingManualMock := origCurrExecutingManualMock,
                            currentlyExecutingModulePath := lastExecutingModulePath }
        Except.ok ({ moduleObj with exports := newExports }, s2)

/-- `requireModule`: return the real (un-mocked) module. A manual mock with no
JS resource substitutes for the module unless it is currently executing or the
explicit override is `false`; core modules and vendor paths go to the host
require; otherwise the registry is checked and, on a miss, the pre-allocated
record is registered before `.json`/`.node` special-casing or execution. -/
def requireModule (fuel : Nat) (E : Env) (body : BodyFun) (s : LoaderState)
    (currPath moduleName : String) : Except (JsError × LoaderState) (JsVal × LoaderState) :=
  match _getNormalizedModuleID fuel E currPath moduleName with
  | Except.error e => Except.error (e, s)
  | Except.ok moduleID =>
    let moduleResource := _getResource E "JS" moduleName
    let manualMockResource := _getResource E "JSMock" moduleName
    let modulePath0 : Option String :=
      match moduleResource, manualMockResource with
      | none, some mmr =>
        if (s.isCurrentlyExecutingManualMock != some mmr.path) &&
            (alLookup s.explicitShouldMock moduleID != some false) then
          some mmr.path
        else none
      | _, _ => none
    if E.host.isCore moduleName then Except.ok (E.host.hostRequire moduleName, s)
    else
      let modulePathE : Except JsError String :=
        match modulePath0 with
        | some p =>
          if p == "" then _moduleNameToPathFuel fuel E currPath moduleName else Except.ok p
        | none => _moduleNameToPathFuel fuel E currPath moduleName
      match modulePathE with
      | Except.error e => Except.error (e, s)
      | Except.ok modulePath =>
        if strIndexOf modulePath E.host.vendorPath == 0 then
          Except.ok (E.host.hostRequire modulePath, s)
        else if modulePath == "" then
          Except.error (JsError.cannotFindModule moduleName currPath, s)
        else
          match alLookup s.moduleRegistry modulePath with
          | some moduleObj => Except.ok (moduleObj.exports, s)
          | none =>
            let moduleObj : ModuleRecord := { filename := modulePath, exports := emptyExports }
            let s1 := { s with moduleRegistry := alInsert s.moduleRegistry modulePath moduleObj }
            if extname modulePath == ".json" then
              let exportsVal := E.host.readJsonFile modulePath
              let moduleObj1 := { moduleObj with exports := exportsVal }
              let s2 := { s1 with
                moduleRegistry := alInsert s1.moduleRegistry modulePath moduleObj1 }
              Except.ok (exportsVal, s2)
            else if extname modulePath == ".node" then
              let exportsVal := E.host.hostRequire modulePath
              let moduleObj1 := { moduleObj with exports := exportsVal }
              let s2 := { s1 with
                moduleRegistry := alInsert s1.moduleRegistry modulePath moduleObj1 }
              Except.ok (exportsVal, s2)
            else
              match _execModule E body moduleObj s1 with
              | Except.error es => Except.error es
              | Except.ok (moduleObj1, s2) => Except.ok (moduleObj1.exports, s2)

/-- `_generateMock`: automock synthesis with the sentinel-metadata insertion
for cycle safety and the registry isolation swap around the recursive real
evaluation. A throwing `requireModule` leaves the registries swapped (the
source restores them only on the normal path). -/
def _generateMock (fuel : Nat) (E : Env) (body : BodyFun) (s : LoaderState)
    (currPath moduleName : String) : Except (JsError × LoaderState) (JsVal × LoaderState) :=
  match _moduleNameToPathFuel fuel E currPath moduleName with
  | Except.error e => Except.error (e, s)
  | Except.ok modulePath =>
    if alHas s.mockMetaDataCache modulePath then
      Except.ok (E.host.generateFromMetadata
        ((alLookup s.mockMetaDataCache modulePath).getD JsVal.undef), s)
    else
      let sentinelCache :=
        alInsert s.mockMetaDataCache modulePath (E.host.getMetadata emptyExports)
      let s1 := { s with mockMetaDataCache := sentinelCache }
      let origMockRegistry := s1.mockRegistry
      let origModuleRegistry := s1.moduleRegistry
      let s2 := { s1 with mockRegistry := [], moduleRegistry := [] }
      match requireModule fuel E body s2 currPath moduleName with
      | Except.error es => Except.error es
      | Except.ok (moduleExports, s3) =>
        let s4 := { s3 with mockRegistry := origMockRegistry,
                            moduleRegistry := origModuleRegistry }
        let mockMetadata := E.host.getMetadata moduleExports
        if mockMetadata == JsVal.nullv then
          Except.error (JsError.genericError
            ("Failed to get mock metadata: " ++ modulePath), s4)
        else
          let newCache := alInsert s4.mockMetaDataCache modulePath mockMetadata
          let s5 := { s4 with mockMetaDataCache := newCache }
          Except.ok (E.host.generateFromMetadata
            ((alLookup s5.mockMetaDataCache modulePath).getD JsVal.undef), s5)

/-- `requireMock`: explicit mock slot, else manual-mock resource or the
`__mocks__` sibling of the resolved real file, else the mock registry, else
evaluate the manual mock or generate an automock and cache it. -/
def requireMock (fuel : Nat) (E : Env) (body : BodyFun) (s : LoaderState)
    (currPath moduleName : String) : Except (JsError × LoaderState) (JsVal × LoaderState) :=
  match _getNormalizedModuleID fuel E currPath moduleName with
  | Except.error e => Except.error (e, s)
  | Except.ok moduleID =>
    match alLookup s.explicitlySetMocks moduleID with
    | some v => Except.ok (v, s)
    | none =>
      let manualMockResource := _getResource E "JSMock" moduleName
      let pathAndManual : Except JsError (String × Bool) :=
        match manualMockResource with
        | some mmr => Except.ok (mmr.path, true)
        | none =>
          match _moduleNameToPathFuel fuel E currPath moduleName with
          | Except.error e => Except.error e
          | Except.ok modulePath =>
            let moduleDir := dirname modulePath
            let moduleFileName := basename modulePath
            let potentialManualMock :=
              pathJoin2 (pathJoin2 moduleDir "__mocks__") moduleFileName
            if E.host.existsSync potentialManualMock then
              Except.ok (potentialManualMock, true)
            else
              Except.ok (modulePath, false)
      match pathAndManual with
      | Except.error e => Except.error (e, s)
      | Except.ok (modulePath, isManualMock) =>
        match alLookup s.mockRegistry modulePath with
        | some v => Except.ok (v, s)
        | none =>
          if isManualMock then
            let moduleObj : ModuleRecord := { filename := modulePath, exports := emptyExports }
            match _execModule E body moduleObj s with
            | Except.error es => Except.error es
            | Except.ok (moduleObj1, s1) =>
              let s2 := { s1 with
                mockRegistry := alInsert s1.mockRegistry modulePath moduleObj1.exports }
              Except.ok (moduleObj1.exports, s2)
          else
            match _generateMock fuel E body s currPath moduleName with
            | Except.error es => Except.error es
            | Except.ok (v, s1) =>
              let s2 := { s1 with mockRegistry := alInsert s1.mockRegistry modulePath v }
              Except.ok (v, s2)

/-- `_shouldMock`: the Mock Policy Engine decision, in source order:
explicit override by ModuleID, core modules, global auto-mock flag, cached
per-name decision, unmock-pattern scan (with the manual-mock swallow of a
failed resolution, the vendor-path early return and the cache writes exactly
where the source performs them). -/
def _shouldMock (fuel : Nat) (E : Env) (s : LoaderState) (currPath moduleName : String) :
    Except (JsError × LoaderState) (Bool × LoaderState) :=
  match _getNormalizedModuleID fuel E currPath moduleName with
  | Except.error e => Except.error (e, s)
  | Except.ok moduleID =>
    match alLookup s.explicitShouldMock moduleID with
    | some b => Except.ok (b, s)
    | none =>
      if E.host.isCore moduleName then Except.ok (false, s)
      else if s.shouldAutoMock then
        match alLookup s.configShouldMockModuleNames moduleName with
        | some b => Except.ok (b, s)
        | none =>
          if !E.config.unmockedModulePathPatterns.isEmpty then
            let cache1 := alInsert s.configShouldMockModuleNames moduleName true
            let s1 := { s with configShouldMockModuleNames := cache1 }
            let manualMockResource := _getResource E "JSMock" moduleName
            match _moduleNameToPathFuel fuel E currPath moduleName with
            | Except.error e =>
              if manualMockResource.isSome then Except.ok (true, s1)
              else Except.error (e, s1)
            | Except.ok modulePath =>
              if strIndexOf modulePath E.host.vendorPath == 0 then
                Except.ok (false, s1)
              else
                let realPath := E.host.realpathSync modulePath
                let cache2 := alInsert s1.configShouldMockModuleNames moduleName true
                let s2 := { s1 with configShouldMockModuleNames := cache2 }
                match E.config.unmockedModulePathPatterns.find?
                    (fun unmockRegExp => E.host.regexTest unmockRegExp modulePath ||
                      E.host.regexTest unmockRegExp realPath) with
                | some _ =>
                  let cache3 := alInsert s2.configShouldMockModuleNames moduleName false
                  let s3 := { s2 with configShouldMockModuleNames := cache3 }
                  Except.ok (false, s3)
                | none =>
                  Except.ok ((alLookup s2.configShouldMockModuleNames moduleName).getD true, s2)
          else Except.ok (true, s)
      else Except.ok (false, s)

/-- `requireModuleOrMock`. -/
def requireModuleOrMock (fuel : Nat) (E : Env) (body : BodyFun) (s : LoaderState)
    (currPath moduleName : String) : Except (JsError × LoaderState) (JsVal × LoaderState) :=
  match _shouldMock fuel E s currPath moduleName with
  | Except.error es => Except.error es
  | Except.ok (true, s1) => requireMock fuel E body s1 currPath moduleName
  | Except.ok (false, s1) => requireModule fuel E body s1 currPath moduleName

/-- `jest.mock(moduleName)` of `_createRuntimeFor(currPath)`. -/
def runtimeMock (fuel : Nat) (E : Env) (currPath : String) (s : LoaderState)
    (moduleName : String) : Except (JsError × LoaderState) LoaderState :=
  match _getNormalizedModuleID fuel E currPath moduleName with
  | Except.error e => Except.error (e, s)
  | Except.ok moduleID =>
    Except.ok { s with explicitShouldMock := alInsert s.explicitShouldMock moduleID true }

/-- `jest.dontMock(moduleName)` of `_createRuntimeFor(currPath)`. -/
def runtimeDontMock (fuel : Nat) (E : Env) (currPath : String) (s : LoaderState)
    (moduleName : String) : Except (JsError × LoaderState) LoaderState :=
  match _getNormalizedModuleID fuel E currPath moduleName with
  | Except.error e => Except.error (e, s)
  | Except.ok moduleID =>
    Except.ok { s with explicitShouldMock := alInsert s.explicitShouldMock moduleID false }

/-- `jest.setMock(moduleName, moduleExports)` of `_createRuntimeFor(currPath)`. -/
def runtimeSetMock (fuel : Nat) (E : Env) (currPath : String) (s : LoaderState)
    (moduleName : String) (moduleExports : JsVal) :
    Except (JsError × LoaderState) LoaderState :=
  match _getNormalizedModuleID fuel E currPath moduleName with
  | Except.error e => Except.error (e, s)
  | Except.ok moduleID =>
    Except.ok { s with
      explicitShouldMock := alInsert s.explicitShouldMock moduleID true,
      explicitlySetMocks := alInsert s.explicitlySetMocks moduleID moduleExports }

/-- The `resetModuleRegistry` pass over the environment global: the body of
`Object.keys(envGlobal).forEach` (clear every mock function) followed by the
`mockClearTimers` invocation when the hook is present. -/
def clearGlobalMocks (g : GlobalObj) : GlobalObj :=
  { g with
    props := g.props.map (fun kp =>
      (kp.1, if kp.2.isObjOrFn && kp.2.isMockFunction then
        { kp.2 with mockCalls := [] } else kp.2)),
    mockClearTimersInvoked := g.mockClearTimersInvoked || g.hasMockClearTimers }

/-- `resetModuleRegistry`: empty both registries; when the environment global
is still present, clear the mock functions among its properties and invoke
`mockClearTimers` if registered. -/
def resetModuleRegistry (s : LoaderState) : LoaderState :=
  let s1 := { s with mockRegistry := [], moduleRegistry := [] }
  match s1.globalObj with
  | some g => { s1 with globalObj := some (clearGlobalMocks g) }
  | none => s1

/-! ## Claim C5 -/

/-- C5: `resetModuleRegistry` replaces both the real and the mock registry
with empty mappings and, when the environment global is present, applies
`clearGlobalMocks` to it — which resets the recorded calls of every property
that is an object/function marked `_isMockFunction` and invokes the
`mockClearTimers` hook when present — while every other loader field, in
particular the explicit should-mock overrides (`explicitShouldMock`) and the
explicitly set mock slots (`explicitlySetMocks`), is left unchanged. -/
theorem resetModuleRegistry_spec (s : LoaderState) :
    (resetModuleRegistry s).moduleRegistry = [] ∧
    (resetModuleRegistry s).mockRegistry = [] ∧
    (resetModuleRegistry s).explicitShouldMock = s.explicitShouldMock ∧
    (resetModuleRegistry s).explicitlySetMocks = s.explicitlySetMocks ∧
    (resetModuleRegistry s).globalObj = s.globalObj.map clearGlobalMocks ∧
    (resetModuleRegistry s).configShouldMockModuleNames = s.configShouldMockModuleNames ∧
    (resetModuleRegistry s).shouldAutoMock = s.shouldAutoMock := by
  unfold resetModuleRegistry
  cases hg : s.globalObj with
  | none => simp_all
  | some g => simp_all

/-! ## Claim C2 -/

/-- The coverage bookkeeping prefix of `_execModule` (lines 177-195 of the
source): register a coverage collector for the file when coverage applies. -/
def execModuleCoverage (E : Env) (moduleObj : ModuleRecord) (s : LoaderState)
    (moduleContent : String) : LoaderState :=
  let filename := moduleObj.filename
  let onlyFrom := E.config.collectCoverageOnlyFrom
  let hasOnlyCollectFrom := match onlyFrom with
    | some l => !l.isEmpty
    | none => false
  let shouldCollectCoverage :=
    (E.config.collectCoverage && !hasOnlyCollectFrom) ||
    (hasOnlyCollectFrom && (onlyFrom.getD []).contains filename)
  if shouldCollectCoverage && !(alHas s.coverageCollectors filename) then
    { s with coverageCollectors := alInsert s.coverageCollectors filename moduleContent }
  else s

theorem execModuleCoverage_preserves (E : Env) (moduleObj : ModuleRecord)
    (s : LoaderState) (c : String) :
    (execModuleCoverage E moduleObj s c).currentlyExecutingModulePath =
        s.currentlyExecutingModulePath ∧
      (execModuleCoverage E moduleObj s c).isCurrentlyExecutingManualMock =
        s.isCurrentlyExecutingManualMock := by
  unfold execModuleCoverage
  refine ⟨?_, ?_⟩ <;> (dsimp only; split <;> rfl)

theorem execModule_eq_coverage_form (E : Env) (body : BodyFun)
    (moduleObj : ModuleRecord) (s : LoaderState) :
    _execModule E body moduleObj s =
      if s.globalObj.isNone then Except.ok (moduleObj, s)
      else
        match E.host.transform moduleObj.filename with
        | Except.error e => Except.error (e, s)
        | Except.ok moduleContent =>
          let sCov := execModuleCoverage E moduleObj s moduleContent
          match body moduleObj.filename moduleObj.exports
              { sCov with currentlyExecutingModulePath := moduleObj.filename,
                          isCurrentlyExecutingManualMock := some moduleObj.filename } with
          | Except.error es => Except.error es
          | Except.ok (s1, newExports) =>
            Except.ok ({ moduleObj with exports := newExports },
              { s1 with isCurrentlyExecutingManualMock := sCov.isCurrentlyExecutingManualMock,
                        currentlyExecutingModulePath := sCov.currentlyExecutingModulePath }) := by
  unfold _execModule execModuleCoverage
  rfl

/-- C2 (amended): `_execModule` restores the previously executing module path
and manual-mock flag on normal completion, and leaves the state untouched when
the Transformer throws (the throw happens before either field is modified);
but when the Environment evaluation / module top-level code throws, the
exception propagates with the state exactly as the body left it — the fields
are NOT reset by `_execModule` (the source has no try/finally). -/
theorem execModule_restore_spec (E : Env) (body : BodyFun) (moduleObj : ModuleRecord)
    (s : LoaderState) :
    (∀ moduleObj1 s1, _execModule E body moduleObj s = Except.ok (moduleObj1, s1) →
      s1.currentlyExecutingModulePath = s.currentlyExecutingModulePath ∧
      s1.isCurrentlyExecutingManualMock = s.isCurrentlyExecutingManualMock) ∧
    (∀ e, s.globalObj.isNone = false →
      E.host.transform moduleObj.filename = Except.error e →
      _execModule E body moduleObj s = Except.error (e, s)) ∧
    (∀ moduleContent e sb, s.globalObj.isNone = false →
      E.host.transform moduleObj.filename = Except.ok moduleContent →
      body moduleObj.filename moduleObj.exports
          { execModuleCoverage E moduleObj s moduleContent with
            currentlyExecutingModulePath := moduleObj.filename,
            isCurrentlyExecutingManualMock := some moduleObj.filename } =
        Except.error (e, sb) →
      _execModule E body moduleObj s = Except.error (e, sb)) := by
  refine ⟨?_, ?_, ?_⟩
  · intro moduleObj1 s1 h
    rw [execModule_eq_coverage_form] at h
    by_cases hg : s.globalObj.isNone
    · rw [if_pos hg] at h
      cases h
      exact ⟨rfl, rfl⟩
    · rw [if_neg hg] at h
      cases htr : E.host.transform moduleObj.filename with
      | error e => rw [htr] at h; cases h
      | ok moduleContent =>
        rw [htr] at h
        simp only at h
        cases hb : body moduleObj.filename moduleObj.exports
            { execModuleCoverage E moduleObj s moduleContent with
              currentlyExecutingModulePath := moduleObj.filename,
              isCurrentlyExecutingManualMock := some moduleObj.filename } with
        | error es => rw [hb] at h; cases h
        | ok r =>
          rw [hb] at h
          cases r with
          | mk s1' newExports =>
            simp only at h
            cases h
            exact ⟨(execModuleCoverage_preserves E moduleObj s moduleContent).1,
              (execModuleCoverage_preserves E moduleObj s moduleContent).2⟩
  · intro e hg htr
    rw [execModule_eq_coverage_form, if_neg (by simp [hg]), htr]
  · intro moduleContent e sb hg htr hb
    rw [execModule_eq_coverage_form, if_neg (by simp [hg]), htr]
    simp only
    rw [hb]

/-- A body that throws immediately, as a module whose top level throws. -/
def bodyThrow : BodyFun := fun _ _ st => Except.error (JsError.genericError "boom", st)

/-- A resource map with no resources at all. -/
def rmEmpty : ResourceMap :=
  { getResource := fun _ _ => none, getResourceByPath := fun _ => none }

/-- An environment whose transformer returns the source unchanged. -/
def envC2 : Env := { host := {}, rm := rmEmpty, config := {} }

/-- A loader state in the middle of executing `/prev.js`. -/
def sC2 : LoaderState := { currentlyExecutingModulePath := "/prev.js" }

/-- The state at the moment the C2 counterexample body throws. -/
def sC2after : LoaderState :=
  { sC2 with currentlyExecutingModulePath := "/proj/m.js",
             isCurrentlyExecutingManualMock := some "/proj/m.js" }

/-- C2 counterexample: a module whose top level throws propagates the
exception with the per-module state NOT restored — the previously executing
module path `/prev.js` and flag `none` are still overwritten with
`/proj/m.js` in the propagated state, contradicting the claim that they are
restored on exceptional completion. -/
theorem execModule_no_restore_on_throw :
    _execModule envC2 bodyThrow ⟨"/proj/m.js", emptyExports⟩ sC2 =
      Except.error (JsError.genericError "boom", sC2after) ∧
    sC2after.currentlyExecutingModulePath ≠ sC2.currentlyExecutingModulePath ∧
    sC2after.isCurrentlyExecutingManualMock ≠ sC2.isCurrentlyExecutingManualMock :=
  ⟨rfl, by decide, by decide⟩

/-- C2 witness: the amended theorem applied at the concrete throwing module. -/
theorem execModule_restore_spec_witness :
    _execModule envC2 bodyThrow ⟨"/proj/m.js", emptyExports⟩ sC2 =
      Except.error (JsError.genericError "boom", sC2after) :=
  (execModule_restore_spec envC2 bodyThrow ⟨"/proj/m.js", emptyExports⟩ sC2).2.2
    "" (JsError.genericError "boom") sC2after rfl rfl rfl

/-! ## Claim C3 -/

/-- The state after `_shouldMock` has written the initial `true` (mock)
decision-cache entry for a module name (line 464 / 498 of the source). -/
def withCacheTrue (s : LoaderState) (moduleName : String) : LoaderState :=
  { s with configShouldMockModuleNames := alInsert s.configShouldMockModuleNames moduleName true }

/-- C3 (amended, general form): with no explicit override for the resolved
ModuleID and a non-core name, the vendor-path rule of `_shouldMock` behaves as
follows. With auto-mock off the decision is real. With auto-mock on, no cached
decision and no unmock patterns configured, the decision is mock — the vendor
rule is never consulted. With auto-mock on, no cached decision and at least
one unmock pattern, a name resolving under the vendor path is decided real on
that lookup, but the cache entry written for the requested name is `true`
(mock), so a later lookup of the same name decides mock. -/
theorem shouldMock_vendor_spec (fuel : Nat) (E : Env) (s : LoaderState)
    (currPath moduleName mid mp : String)
    (hid : _getNormalizedModuleID fuel E currPath moduleName = Except.ok mid)
    (hover : alLookup s.explicitShouldMock mid = none)
    (hcore : E.host.isCore moduleName = false) :
    (s.shouldAutoMock = false →
      _shouldMock fuel E s currPath moduleName = Except.ok (false, s)) ∧
    (s.shouldAutoMock = true →
      alLookup s.configShouldMockModuleNames moduleName = none →
      E.config.unmockedModulePathPatterns.isEmpty = true →
      _shouldMock fuel E s currPath moduleName = Except.ok (true, s)) ∧
    (s.shouldAutoMock = true →
      alLookup s.configShouldMockModuleNames moduleName = none →
      E.config.unmockedModulePathPatterns.isEmpty = false →
      _moduleNameToPathFuel fuel E currPath moduleName = Except.ok mp →
      (strIndexOf mp E.host.vendorPath == 0) = true →
      _shouldMock fuel E s currPath moduleName =
          Except.ok (false, withCacheTrue s moduleName) ∧
        alLookup (withCacheTrue s moduleName).configShouldMockModuleNames moduleName
          = some true ∧
        _shouldMock fuel E (withCacheTrue s moduleName) currPath moduleName =
          Except.ok (true, withCacheTrue s moduleName)) := by
  refine ⟨?_, ?_, ?_⟩
  · intro hauto
    simp [_shouldMock, hid, hover, hcore, hauto]
  · intro hauto hcache hpat
    simp [_shouldMock, hid, hover, hcore, hauto, hcache, hpat]
  · intro hauto hcache hpat hres hvendor
    refine ⟨?_, ?_, ?_⟩
    · simp [_shouldMock, hid, hover, hcore, hauto, hcache, hpat, hres, hvendor,
        withCacheTrue]
    · simp [withCacheTrue, alLookup_alInsert_self]
    · simp [_shouldMock, hid, hover, hcore, hauto, withCacheTrue,
        alLookup_alInsert_self s.configShouldMockModuleNames moduleName true]

/-- An environment resolving `jasmine2` to a file under the vendor path, with
one (non-matching) unmock pattern configured. -/
def resolveC3 : String → String → Option String := fun _ n =>
  if n == "jasmine2" then some "/jest/vendor/jasmine2.js" else none

def envC3 : Env :=
  { host := { resolveSync := resolveC3, vendorPath := "/jest/vendor" },
    rm := rmEmpty,
    config := { unmockedModulePathPatterns := ["nomatch"] } }

/-- The fresh loader state of the C3 scenario. -/
def sC3init : LoaderState := {}

/-- The loader state after the first C3 policy lookup: the decision cache
holds `true` (mock) for the vendor-resolved name. -/
def sC3cached : LoaderState := { configShouldMockModuleNames := [("jasmine2", true)] }

/-- C3 counterexample: the first lookup of a vendor-path name decides real,
but the decision cached under the name is mock, so the second lookup of the
very same name decides mock — contradicting the claim that the real decision
is cached so that later lookups also yield real. -/
theorem shouldMock_vendor_not_cached_real :
    _shouldMock 10 envC3 sC3init "/test/t.js" "jasmine2" =
        Except.ok (false, sC3cached) ∧
      _shouldMock 10 envC3 sC3cached "/test/t.js" "jasmine2" =
        Except.ok (true, sC3cached) :=
  ⟨rfl, rfl⟩

/-- C3 witness: the amended theorem applied at the concrete vendor scenario. -/
theorem shouldMock_vendor_spec_witness :
    _shouldMock 10 envC3 sC3init "/test/t.js" "jasmine2" =
        Except.ok (false, sC3cached) ∧
      _shouldMock 10 envC3 sC3cached "/test/t.js" "jasmine2" =
        Except.ok (true, sC3cached) := by
  have h := (shouldMock_vendor_spec 10 envC3 sC3init "/test/t.js" "jasmine2"
    "user:null:null" "/jest/vendor/jasmine2.js" rfl rfl rfl).2.2 rfl rfl rfl rfl rfl
  exact ⟨h.1, h.2.2⟩

/-! ## Claim C10 -/

/-- The manual-mock resource of the C10 scenario: `foo` exists only as a
manual mock (no real path anywhere). -/
def mmResC10 : Resource := { type := "JSMock", id := "foo", path := "/mocks/foo.js" }

/-- The source resource at `/proj/a.js` requiring `path` and `foo`. -/
def aResC10 : Resource :=
  { type := "JS", id := "a", path := "/proj/a.js", requiredModules := ["path", "foo"] }

def rmC10 : ResourceMap :=
  { getResource := fun t n => if t == "JSMock" && n == "foo" then some mmResC10 else none,
    getResourceByPath := fun p => if p == "/proj/a.js" then some aResC10 else none }

/-- The C10 environment: `path` is a platform built-in. -/
def envC10 : Env :=
  { host := { isCore := fun n => n == "path" }, rm := rmC10, config := {} }

/-- C10: `getDependenciesFromPath` returns entries that are not absolute file
paths: the dependency on the platform built-in `path` is reported as the bare
name "path", and the dependency on `foo` — a manual mock standing alone, whose
ModuleID has no real path — is reported as the literal string "null", because
each entry is `split(path.delimiter)[1]` of the string-encoded ModuleID in
which the absent real path was stringified as "null". -/
theorem getDependenciesFromPath_nonpath_entries :
    getDependenciesFromPath 10 envC10 "/proj/a.js" = Except.ok ["path", "null"] ∧
    _getNormalizedModuleID 10 envC10 "/proj/a.js" "foo" =
      Except.ok ("user" ++ pathDelimiter ++ "null" ++ pathDelimiter ++ "/mocks/foo.js") ∧
    _getNormalizedModuleID 10 envC10 "/proj/a.js" "path" =
      Except.ok ("node" ++ pathDelimiter ++ "path" ++ pathDelimiter ++ "null") ∧
    _getRealPathFromNormalizedModuleID
      ("user" ++ pathDelimiter ++ "null" ++ pathDelimiter ++ "/mocks/foo.js") = "null" ∧
    _getRealPathFromNormalizedModuleID
      ("node" ++ pathDelimiter ++ "path" ++ pathDelimiter ++ "null") = "path" :=
  ⟨rfl, rfl, rfl, rfl, rfl⟩

/-! ## Claim C9 -/

theorem resetModuleRegistry_fields (s : LoaderState) :
    (resetModuleRegistry s).configShouldMockModuleNames = s.configShouldMockModuleNames ∧
    (resetModuleRegistry s).explicitShouldMock = s.explicitShouldMock ∧
    (resetModuleRegistry s).shouldAutoMock = s.shouldAutoMock ∧
    (resetModuleRegistry s).moduleRegistry = [] ∧
    (resetModuleRegistry s).mockRegistry = [] := by
  unfold resetModuleRegistry
  cases hg : s.globalObj <;> simp

/-- C9: the per-requested-name should-mock decision cache survives
`resetModuleRegistry`: the reset empties both registries but does not touch
`configShouldMockModuleNames`, so a policy lookup after the reset returns the
previously cached verdict for the name unchanged (no pattern scan, no cache
write, state returned as-is) even though both registries were emptied. -/
theorem shouldMock_cache_survives_reset (fuel : Nat) (E : Env) (s : LoaderState)
    (currPath moduleName mid : String) (v : Bool)
    (hid : _getNormalizedModuleID fuel E currPath moduleName = Except.ok mid)
    (hover : alLookup s.explicitShouldMock mid = none)
    (hcore : E.host.isCore moduleName = false)
    (hauto : s.shouldAutoMock = true)
    (hcache : alLookup s.configShouldMockModuleNames moduleName = some v) :
    (resetModuleRegistry s).configShouldMockModuleNames = s.configShouldMockModuleNames ∧
    (resetModuleRegistry s).moduleRegistry = [] ∧
    (resetModuleRegistry s).mockRegistry = [] ∧
    _shouldMock fuel E (resetModuleRegistry s) currPath moduleName =
      Except.ok (v, resetModuleRegistry s) := by
  obtain ⟨h1, h2, h3, h4, h5⟩ := resetModuleRegistry_fields s
  refine ⟨h1, h4, h5, ?_⟩
  simp [_shouldMock, hid, h1, h2, h3, hover, hcore, hauto, hcache]

/-- A loader state with a cached mock-policy verdict for `foo` and a
populated real registry. -/
def sC9 : LoaderState :=
  { configShouldMockModuleNames := [("foo", false)],
    moduleRegistry := [("/proj/a.js", { filename := "/proj/a.js", exports := JsVal.num 1 })] }

/-- C9 witness: the theorem applied at the concrete scenario. -/
theorem shouldMock_cache_survives_reset_witness :
    _shouldMock 10 envC10 (resetModuleRegistry sC9) "/proj/a.js" "foo" =
      Except.ok (false, resetModuleRegistry sC9) :=
  (shouldMock_cache_survives_reset 10 envC10 sC9 "/proj/a.js" "foo"
    "user:null:/mocks/foo.js" false rfl rfl rfl rfl rfl).2.2.2

/-! ## Claim C7 -/

/-- C7: the explicit override stored for the resolved ModuleID is consulted
first by `_shouldMock` and wins over every other rule (the state and
environment are arbitrary, so this covers any core-name classification,
auto-mock flag, cached per-name decision and unmock patterns); `jest.mock(x)`
and `jest.dontMock(x)` overwrite the same override key, so `mock(x)` then
`dontMock(x)` leaves the override `false`, the policy decides real and
`requireModuleOrMock` takes the real branch, while the reverse order decides
mock — the order of the calls determines the result. -/
theorem shouldMock_explicit_override_dominance (fuel : Nat) (E : Env) (s : LoaderState)
    (currPath moduleName mid : String)
    (hid : _getNormalizedModuleID fuel E currPath moduleName = Except.ok mid) :
    (∀ b, alLookup s.explicitShouldMock mid = some b →
      _shouldMock fuel E s currPath moduleName = Except.ok (b, s)) ∧
    (∀ s1 s2, runtimeMock fuel E currPath s moduleName = Except.ok s1 →
      runtimeDontMock fuel E currPath s1 moduleName = Except.ok s2 →
      alLookup s2.explicitShouldMock mid = some false ∧
      _shouldMock fuel E s2 currPath moduleName = Except.ok (false, s2) ∧
      (∀ body, requireModuleOrMock fuel E body s2 currPath moduleName =
        requireModule fuel E body s2 currPath moduleName)) ∧
    (∀ s1 s2, runtimeDontMock fuel E currPath s moduleName = Except.ok s1 →
      runtimeMock fuel E currPath s1 moduleName = Except.ok s2 →
      alLookup s2.explicitShouldMock mid = some true ∧
      _shouldMock fuel E s2 currPath moduleName = Except.ok (true, s2) ∧
      (∀ body, requireModuleOrMock fuel E body s2 currPath moduleName =
        requireMock fuel E body s2 currPath moduleName)) := by
  refine ⟨?_, ?_, ?_⟩
  · intro b hb
    simp [_shouldMock, hid, hb]
  · intro s1 s2 h1 h2
    simp only [runtimeMock, hid] at h1
    cases h1
    simp only [runtimeDontMock, hid] at h2
    cases h2
    have hlook : alLookup (alInsert (alInsert s.explicitShouldMock mid true) mid false) mid
        = some false := alLookup_alInsert_self _ _ _
    have hsm : _shouldMock fuel E
        { s with explicitShouldMock := alInsert (alInsert s.explicitShouldMock mid true) mid false }
        currPath moduleName =
        Except.ok (false,
          { s with explicitShouldMock := alInsert (alInsert s.explicitShouldMock mid true) mid false }) := by
      simp [_shouldMock, hid, hlook]
    exact ⟨hlook, hsm, fun body => by simp [requireModuleOrMock, hsm]⟩
  · intro s1 s2 h1 h2
    simp only [runtimeDontMock, hid] at h1
    cases h1
    simp only [runtimeMock, hid] at h2
    cases h2
    have hlook : alLookup (alInsert (alInsert s.explicitShouldMock mid false) mid true) mid
        = some true := alLookup_alInsert_self _ _ _
    have hsm : _shouldMock fuel E
        { s with explicitShouldMock := alInsert (alInsert s.explicitShouldMock mid false) mid true }
        currPath moduleName =
        Except.ok (true,
          { s with explicitShouldMock := alInsert (alInsert s.explicitShouldMock mid false) mid true }) := by
      simp [_shouldMock, hid, hlook]
    exact ⟨hlook, hsm, fun body => by simp [requireModuleOrMock, hsm]⟩

/-- The loader state after `jest.mock("foo")` then `jest.dontMock("foo")` in
the C10 environment. -/
def sC7after : LoaderState := { explicitShouldMock := [("user:null:/mocks/foo.js", false)] }

/-- C7 witness: the theorem applied at the concrete scenario. -/
theorem shouldMock_explicit_override_dominance_witness :
    alLookup sC7after.explicitShouldMock "user:null:/mocks/foo.js" = some false ∧
    _shouldMock 10 envC10 sC7after "/proj/a.js" "foo" = Except.ok (false, sC7after) := by
  have h := (shouldMock_explicit_override_dominance 10 envC10 {} "/proj/a.js" "foo"
    "user:null:/mocks/foo.js" rfl).2.1
    { explicitShouldMock := [("user:null:/mocks/foo.js", true)] } sC7after rfl rfl
  exact ⟨h.1, h.2.1⟩

/-! ## Claim C1 -/

theorem moduleNameToPath_jsResource (fuel : Nat) (E : Env) (currPath moduleName : String)
    (jsRes : Resource) (hJS : _getResource E "JS" moduleName = some jsRes) :
    _moduleNameToPathFuel (fuel+1) E currPath moduleName = Except.ok jsRes.path := by
  simp [_moduleNameToPathFuel, hJS]

theorem getNormalizedModuleID_ok_of_jsResource (fuel : Nat) (E : Env)
    (currPath moduleName : String) (jsRes : Resource)
    (hJS : _getResource E "JS" moduleName = some jsRes)
    (hcore : E.host.isCore moduleName = false) :
    ∃ mid, _getNormalizedModuleID (fuel+1) E currPath moduleName = Except.ok mid := by
  have hpath := moduleNameToPath_jsResource fuel E currPath moduleName jsRes hJS
  unfold _getNormalizedModuleID
  rw [hcore]
  simp only [Bool.false_eq_true, if_false]
  by_cases hc : (isPathBasedModuleName moduleName ||
      ((_getResource E "JS" moduleName).isNone &&
       (_getResource E "JSMock" moduleName).isNone)) = true
  · rw [if_pos hc, hpath]
    dsimp only
    cases hby : E.rm.getResourceByPath jsRes.path with
    | none => exact ⟨_, rfl⟩
    | some r =>
      dsimp only
      by_cases ht1 : (r.type == "JS") = true
      · rw [if_pos ht1]
        exact ⟨_, rfl⟩
      · rw [if_neg ht1]
        by_cases ht2 : (r.type == "JSMock") = true
        · rw [if_pos ht2]
          exact ⟨_, rfl⟩
        · rw [if_neg ht2]
          exact ⟨_, rfl⟩
  · rw [if_neg hc]
    exact ⟨_, rfl⟩

/-- C1: within one registry generation the Executor runs at most once per
path. When the requested name (a JS resource, non-core, non-vendor,
non-json/node) resolves to a path already present in the real registry,
`requireModule` returns that record's exports without invoking the Executor —
the result is the same for every body, so a recursive require of the path
during its evaluation returns the partially-populated record. On a miss,
`requireModule` first registers the pre-allocated ModuleRecord with empty
exports and only then invokes the Executor on the updated state. -/
theorem requireModule_evaluates_once (fuel : Nat) (E : Env) (s : LoaderState)
    (currPath moduleName : String) (jsRes : Resource)
    (hJS : _getResource E "JS" moduleName = some jsRes)
    (hcore : E.host.isCore moduleName = false)
    (hvendor : (strIndexOf jsRes.path E.host.vendorPath == 0) = false)
    (hne : (jsRes.path == "") = false)
    (hjson : (extname jsRes.path == ".json") = false)
    (hnode : (extname jsRes.path == ".node") = false) :
    (∀ r, alLookup s.moduleRegistry jsRes.path = some r →
      ∀ body, requireModule (fuel+1) E body s currPath moduleName =
        Except.ok (r.exports, s)) ∧
    (alLookup s.moduleRegistry jsRes.path = none →
      ∀ body, requireModule (fuel+1) E body s currPath moduleName =
        (match _execModule E body { filename := jsRes.path, exports := emptyExports }
            { s with moduleRegistry := alInsert s.moduleRegistry jsRes.path { filename := jsRes.path, exports := emptyExports } } with
         | Except.error es => Except.error es
         | Except.ok (moduleObj1, s2) => Except.ok (moduleObj1.exports, s2))) := by
  obtain ⟨mid, hid⟩ :=
    getNormalizedModuleID_ok_of_jsResource fuel E currPath moduleName jsRes hJS hcore
  have hpath := moduleNameToPath_jsResource fuel E currPath moduleName jsRes hJS
  constructor
  · intro r hreg body
    simp [requireModule, hid, hJS, hcore, hpath, hvendor, hne, hjson, hnode, hreg]
  · intro hreg body
    simp [requireModule, hid, hJS, hcore, hpath, hvendor, hne, hjson, hnode, hreg]

/-- The real module `mymod` of the C1 witness scenario. -/
def jsResC1 : Resource := { type := "JS", id := "mymod", path := "/proj/mymod.js" }

def rmC1 : ResourceMap :=
  { getResource := fun t n => if t == "JS" && n == "mymod" then some jsResC1 else none,
    getResourceByPath := fun _ => none }

def envC1 : Env := { host := {}, rm := rmC1, config := {} }

/-- A module body whose exports are the string of its own filename. -/
def bodyFile : BodyFun := fun f _ st => Except.ok (st, JsVal.str f)

/-- A registry generation in which `/proj/mymod.js` is already evaluated. -/
def sC1hit : LoaderState :=
  { moduleRegistry := [("/proj/mymod.js",
      { filename := "/proj/mymod.js", exports := JsVal.num 7 })] }

/-- A fresh registry generation. -/
def sC1miss : LoaderState := {}

/-- The state after the first evaluation of `/proj/mymod.js`: the
pre-allocated record is registered. -/
def sC1postExec : LoaderState :=
  { moduleRegistry := [("/proj/mymod.js",
      { filename := "/proj/mymod.js", exports := emptyExports })] }

/-- C1 witness: registry hit returns the cached record without evaluation;
registry miss registers the pre-allocated record and evaluates. -/
theorem requireModule_evaluates_once_witness :
    requireModule 1 envC1 bodyFile sC1hit "/test/t.js" "mymod" =
        Except.ok (JsVal.num 7, sC1hit) ∧
      requireModule 1 envC1 bodyFile sC1miss "/test/t.js" "mymod" =
        Except.ok (JsVal.str "/proj/mymod.js", sC1postExec) := by
  have h1 := requireModule_evaluates_once 0 envC1 sC1hit "/test/t.js" "mymod" jsResC1
    rfl rfl rfl rfl rfl rfl
  have h2 := requireModule_evaluates_once 0 envC1 sC1miss "/test/t.js" "mymod" jsResC1
    rfl rfl rfl rfl rfl rfl
  exact ⟨h1.1 { filename := "/proj/mymod.js", exports := JsVal.num 7 } rfl bodyFile,
    (h2.2 rfl bodyFile).trans rfl⟩

/-! ## Claim C4 -/

/-- The canonical module of the C4 scenario, present in the resource map. -/
def resC4 : Resource := { type := "JS", id := "canonical", path := "/proj/canonical.js" }

def rmC4 : ResourceMap :=
  { getResource := fun t n => if t == "JS" && n == "canonical" then some resC4 else none,
    getResourceByPath := fun _ => none }

/-- The regex semantics of the single C4 mapping: `^alias$` matches exactly
the string `alias`. -/
def regexTestC4 : String → String → Bool := fun p s => p == "^alias$" && s == "alias"

def envC4 : Env :=
  { host := { regexTest := regexTestC4 }, rm := rmC4,
    config := { moduleNameMapper := [("^alias$", "canonical")] } }

/-- C4 counterexample: the mapping `("^alias$", "canonical")` is declared and
matches the request `alias`, and the canonical module exists, yet a JS
resource lookup of `alias` misses and filesystem resolution of `alias` fails
with module-not-found — the mapping was NOT applied before classification,
resolution or the ResourceMap lookup. It is applied only in the manual-mock
fallback: a JSMock lookup of `alias` returns the canonical JS resource. -/
theorem nameMapper_not_applied_before_resolution :
    _resolveStubModuleName envC4 "alias" = some "canonical" ∧
    envC4.rm.getResource "JS" "canonical" = some resC4 ∧
    _getResource envC4 "JS" "alias" = none ∧
    _moduleNameToPathFuel 2 envC4 "/test/t.js" "alias" =
      Except.error (JsError.cannotFindModule "alias" "/test/t.js") ∧
    _getResource envC4 "JSMock" "alias" = some resC4 :=
  ⟨rfl, rfl, rfl, rfl, rfl⟩

/-- C4 (amended): name mapping is applied only when a JSMock (manual-mock)
resource lookup misses: JS lookups are independent of the configured mapper,
while a missed JSMock lookup tests the requested name against the mappings —
iterated by canonical name in first-insertion order, a repeated canonical
name overwriting the earlier pattern in place — and the first match's
canonical name is looked up as a JS resource, which then serves as the
manual-mock resource. -/
theorem nameMapper_only_for_missed_mocks (E : Env) (resourceName : String)
    (m' : List (String × String)) (p1 c1 p2 c2 : String)
    (hcc : (c1 == c2) = false)
    (hraw : E.rm.getResource "JSMock" resourceName = none) :
    _getResource { E with config := { E.config with moduleNameMapper := m' } } "JS" resourceName
      = _getResource E "JS" resourceName ∧
    _getResource E "JSMock" resourceName =
      (match _resolveStubModuleName E resourceName with
       | some mappedName =>
         if mappedName == "" then none else E.rm.getResource "JS" mappedName
       | none => none) ∧
    mappedModuleNames [(p1, c1), (p2, c2)] = [(c1, p1), (c2, p2)] ∧
    mappedModuleNames [(p1, c1), (p2, c1)] = [(c1, p2)] := by
  refine ⟨rfl, ?_, ?_, ?_⟩
  · unfold _getResource
    rw [hraw]
    rfl
  · simp [mappedModuleNames, alInsert, hcc]
  · simp [mappedModuleNames, alInsert]

/-- C4 witness: the amended theorem applied at the concrete mapping scenario
(the missed JSMock lookup of `alias` returns the canonical JS resource). -/
theorem nameMapper_only_for_missed_mocks_witness :
    _getResource envC4 "JSMock" "alias" = some resC4 := by
  have h := (nameMapper_only_for_missed_mocks envC4 "alias" [] "^alias$" "canonical"
    "p2" "c2" rfl rfl).2.1
  exact h.trans rfl

/-! ## Claim C6 -/

/-- Projection: the delivered exports value of a require result. -/
def exceptVal (r : Except (JsError × LoaderState) (JsVal × LoaderState)) : Option JsVal :=
  match r with
  | Except.ok (v, _) => some v
  | Except.error _ => none

/-- The standalone manual mock of the C6 scenario: `foo` has a JSMock
resource but no JS resource, while a real file still resolves on disk. -/
def mmResC6 : Resource := { type := "JSMock", id := "foo", path := "/mocks/foo.js" }

def rmC6 : ResourceMap :=
  { getResource := fun t n => if t == "JSMock" && n == "foo" then some mmResC6 else none,
    getResourceByPath := fun _ => none }

def resolveC6 : String → String → Option String := fun _ n =>
  if n == "foo" then some "/real/foo.js" else none

def envC6 : Env := { host := { resolveSync := resolveC6 }, rm := rmC6, config := {} }

/-- The state after `jest.mock("foo")` in the C6 scenario. -/
def sC6mock : LoaderState := { explicitShouldMock := [("user:null:/mocks/foo.js", true)] }

/-- The state after `jest.dontMock("foo")` in the C6 scenario. -/
def sC6dont : LoaderState := { explicitShouldMock := [("user:null:/mocks/foo.js", false)] }

/-- C6 counterexample: after `jest.mock("foo")`, `require.requireActual("foo")`
(which is `requireModule` bound to the importer) evaluates and returns the
manual mock `/mocks/foo.js`, not the real module `/real/foo.js` — because
`foo` has a manual-mock resource, no JS resource, and the explicit override is
not `false`. With `jest.dontMock("foo")` instead, the real module is
returned, so the override value (not a bypass) steers `requireModule`. -/
theorem requireActual_returns_manual_mock :
    runtimeMock 2 envC6 "/test/t.js" ({} : LoaderState) "foo" = Except.ok sC6mock ∧
    exceptVal (requireModule 2 envC6 bodyFile sC6mock "/test/t.js" "foo") =
      some (JsVal.str "/mocks/foo.js") ∧
    exceptVal (requireModule 2 envC6 bodyFile sC6dont "/test/t.js" "foo") =
      some (JsVal.str "/real/foo.js") ∧
    JsVal.str "/mocks/foo.js" ≠ JsVal.str "/real/foo.js" :=
  ⟨rfl, rfl, rfl, by decide⟩

/-- C6 (amended): `require.requireActual(name)` bypasses the mock policy and
returns the real module's exports whenever the name has a JS resource — even
when its ModuleID is listed for mocking, since the conclusion holds for every
state, in particular any `explicitShouldMock` content — except that when the
name has no JS resource but a manual-mock (JSMock) resource exists, the
loader is not currently executing that manual mock, and the explicit override
is not `false` (for example after `jest.mock(name)`), `requireModule`
evaluates and returns the manual mock's exports instead. -/
theorem requireActual_spec (fuel : Nat) (E : Env) (s : LoaderState)
    (currPath moduleName : String) :
    (∀ jsRes, _getResource E "JS" moduleName = some jsRes →
      E.host.isCore moduleName = false →
      (strIndexOf jsRes.path E.host.vendorPath == 0) = false →
      (jsRes.path == "") = false →
      (extname jsRes.path == ".json") = false →
      (extname jsRes.path == ".node") = false →
      ∀ body, requireModule (fuel+1) E body s currPath moduleName =
        (match alLookup s.moduleRegistry jsRes.path with
         | some r => Except.ok (r.exports, s)
         | none =>
           match _execModule E body { filename := jsRes.path, exports := emptyExports } { s with moduleRegistry := alInsert s.moduleRegistry jsRes.path { filename := jsRes.path, exports := emptyExports } } with
           | Except.error es => Except.error es
           | Except.ok (moduleObj1, s2) => Except.ok (moduleObj1.exports, s2))) ∧
    (∀ mmr, _getResource E "JS" moduleName = none →
      _getResource E "JSMock" moduleName = some mmr →
      isPathBasedModuleName moduleName = false →
      E.host.isCore moduleName = false →
      (s.isCurrentlyExecutingManualMock != some mmr.path) = true →
      (alLookup s.explicitShouldMock ("user" ++ pathDelimiter ++ "null" ++ pathDelimiter ++ mmr.path) != some false) = true →
      (strIndexOf mmr.path E.host.vendorPath == 0) = false →
      (mmr.path == "") = false →
      (extname mmr.path == ".json") = false →
      (extname mmr.path == ".node") = false →
      ∀ body, requireModule (fuel+1) E body s currPath moduleName =
        (match alLookup s.moduleRegistry mmr.path with
         | some r => Except.ok (r.exports, s)
         | none =>
           match _execModule E body { filename := mmr.path, exports := emptyExports } { s with moduleRegistry := alInsert s.moduleRegistry mmr.path { filename := mmr.path, exports := emptyExports } } with
           | Except.error es => Except.error es
           | Except.ok (moduleObj1, s2) => Except.ok (moduleObj1.exports, s2))) := by
  constructor
  · intro jsRes hJS hcore hvendor hne hjson hnode body
    obtain ⟨mid, hid⟩ :=
      getNormalizedModuleID_ok_of_jsResource fuel E currPath moduleName jsRes hJS hcore
    have hpath := moduleNameToPath_jsResource fuel E currPath moduleName jsRes hJS
    cases hreg : alLookup s.moduleRegistry jsRes.path with
    | some r =>
      simp [requireModule, hid, hJS, hcore, hpath, hvendor, hne, hjson, hnode, hreg]
    | none =>
      simp [requireModule, hid, hJS, hcore, hpath, hvendor, hne, hjson, hnode, hreg]
  · intro mmr hJSnone hmm hpb hcore hflag hov hvendor hne hjson hnode body
    have hid : _getNormalizedModuleID (fuel+1) E currPath moduleName =
        Except.ok ("user" ++ pathDelimiter ++ "null" ++ pathDelimiter ++ mmr.path) := by
      unfold _getNormalizedModuleID
      rw [hcore]
      simp [hpb, hJSnone, hmm, showNullable]
    cases hreg : alLookup s.moduleRegistry mmr.path with
    | some r =>
      simp [requireModule, hid, hJSnone, hmm, hpb, hcore, hflag, hov, hvendor, hne,
        hjson, hnode, hreg]
    | none =>
      simp [requireModule, hid, hJSnone, hmm, hpb, hcore, hflag, hov, hvendor, hne,
        hjson, hnode, hreg]

/-- The state after C6's manual-mock evaluation: the mock file's pre-allocated
record is registered in the real registry. -/
def sC6postExec : LoaderState :=
  { explicitShouldMock := [("user:null:/mocks/foo.js", true)],
    moduleRegistry := [("/mocks/foo.js",
      { filename := "/mocks/foo.js", exports := emptyExports })] }

/-- A state in which the C1-scenario module `mymod` is listed for mocking. -/
def sC6real : LoaderState := { explicitShouldMock := [("user:/proj/mymod.js:null", true)] }

/-- The state after C6's real evaluation of `mymod` despite the override. -/
def sC6realPost : LoaderState :=
  { explicitShouldMock := [("user:/proj/mymod.js:null", true)],
    moduleRegistry := [("/proj/mymod.js",
      { filename := "/proj/mymod.js", exports := emptyExports })] }

/-- C6 witness: both branches of the amended theorem at concrete inputs — the
standalone manual mock is delivered after `jest.mock("foo")`, while a module
with a JS resource is delivered real even when listed for mocking. -/
theorem requireActual_spec_witness :
    requireModule 2 envC6 bodyFile sC6mock "/test/t.js" "foo" =
        Except.ok (JsVal.str "/mocks/foo.js", sC6postExec) ∧
      requireModule 1 envC1 bodyFile sC6real "/test/t.js" "mymod" =
        Except.ok (JsVal.str "/proj/mymod.js", sC6realPost) := by
  have h2 := (requireActual_spec 1 envC6 sC6mock "/test/t.js" "foo").2 mmResC6
    rfl rfl rfl rfl rfl rfl rfl rfl rfl rfl bodyFile
  have h1 := (requireActual_spec 0 envC1 sC6real "/test/t.js" "mymod").1 jsResC1
    rfl rfl rfl rfl rfl rfl bodyFile
  exact ⟨h2.trans rfl, h1.trans rfl⟩

/-! ## Claim C8 -/

theorem moduleNameToPath_error_exhausted (fuel : Nat) (E : Env)
    (currPath moduleName : String) (e : JsError)
    (h : _moduleNameToPathFuel (fuel+1) E currPath moduleName = Except.error e) :
    _getResource E "JS" moduleName = none ∧
    E.host.resolveSync (dirname currPath) moduleName = none := by
  unfold _moduleNameToPathFuel at h
  cases hJS : _getResource E "JS" moduleName with
  | some r =>
    rw [hJS] at h
    exact Except.noConfusion h
  | none =>
    rw [hJS] at h
    refine ⟨rfl, ?_⟩
    unfold _nodeModuleNameToPathAux at h
    dsimp only at h
    cases hrs : E.host.resolveSync (dirname currPath) moduleName with
    | some p =>
      rw [hrs] at h
      exact Except.noConfusion h
    | none => rfl

theorem getNormalizedModuleID_error (fuel : Nat) (E : Env)
    (currPath moduleName : String) (e : JsError)
    (h : _getNormalizedModuleID fuel E currPath moduleName = Except.error e) :
    _moduleNameToPathFuel fuel E currPath moduleName = Except.error e ∧
    (isPathBasedModuleName moduleName = true ∨
      (_getResource E "JS" moduleName = none ∧
       _getResource E "JSMock" moduleName = none)) := by
  unfold _getNormalizedModuleID at h
  by_cases hcore : E.host.isCore moduleName = true
  · rw [if_pos hcore] at h
    exact Except.noConfusion h
  · rw [if_neg hcore] at h
    dsimp only at h
    by_cases hc : (isPathBasedModuleName moduleName ||
        ((_getResource E "JS" moduleName).isNone &&
         (_getResource E "JSMock" moduleName).isNone)) = true
    · rw [if_pos hc] at h
      cases hmp : _moduleNameToPathFuel fuel E currPath moduleName with
      | error e1 =>
        rw [hmp] at h
        dsimp only at h
        cases h
        refine ⟨rfl, ?_⟩
        simp only [Bool.or_eq_true, Bool.and_eq_true, Option.isNone_iff_eq_none] at hc
        exact hc
      | ok mp =>
        rw [hmp] at h
        dsimp only at h
        cases hby : E.rm.getResourceByPath mp with
        | none =>
          rw [hby] at h
          exact Except.noConfusion h
        | some r =>
          rw [hby] at h
          dsimp only at h
          by_cases ht1 : (r.type == "JS") = true
          · rw [if_pos ht1] at h
            exact Except.noConfusion h
          · rw [if_neg ht1] at h
            by_cases ht2 : (r.type == "JSMock") = true
            · rw [if_pos ht2] at h
              exact Except.noConfusion h
            · rw [if_neg ht2] at h
              exact Except.noConfusion h
    · rw [if_neg hc] at h
      exact Except.noConfusion h

/-- C8 (amended): the Mock Policy Engine fails with module-not-found only
when every resolution strategy for the name is exhausted (no JS resource,
node-style resolution fails) and — for a non-path-form request — no manual
mock exists for the name; when real-path resolution fails during the
decision but a manual mock exists, the error is swallowed and the decision
is mock; when no manual mock exists the Resolver's error propagates
unswallowed (with the mock-true cache entry already written, as the source
leaves it). For a path-form request, however, the ModuleID normalization
throws before the manual-mock swallow is reached, so the error propagates
even when a (name-mapper-provided) manual mock exists for the name. -/
theorem shouldMock_error_spec (fuel : Nat) (E : Env) (s : LoaderState)
    (currPath moduleName : String) :
    (∀ a b s1, _shouldMock (fuel+1) E s currPath moduleName =
        Except.error (JsError.cannotFindModule a b, s1) →
      _getResource E "JS" moduleName = none ∧
      E.host.resolveSync (dirname currPath) moduleName = none ∧
      (isPathBasedModuleName moduleName = true ∨
        _getResource E "JSMock" moduleName = none)) ∧
    (∀ mid e, _getNormalizedModuleID (fuel+1) E currPath moduleName = Except.ok mid →
      alLookup s.explicitShouldMock mid = none →
      E.host.isCore moduleName = false →
      s.shouldAutoMock = true →
      alLookup s.configShouldMockModuleNames moduleName = none →
      E.config.unmockedModulePathPatterns.isEmpty = false →
      _moduleNameToPathFuel (fuel+1) E currPath moduleName = Except.error e →
      ((_getResource E "JSMock" moduleName).isSome = true →
        _shouldMock (fuel+1) E s currPath moduleName =
          Except.ok (true, withCacheTrue s moduleName)) ∧
      (_getResource E "JSMock" moduleName = none →
        _shouldMock (fuel+1) E s currPath moduleName =
          Except.error (e, withCacheTrue s moduleName))) ∧
    (∀ e, isPathBasedModuleName moduleName = true →
      E.host.isCore moduleName = false →
      _moduleNameToPathFuel (fuel+1) E currPath moduleName = Except.error e →
      _shouldMock (fuel+1) E s currPath moduleName = Except.error (e, s)) := by
  refine ⟨?_, ?_, ?_⟩
  · intro a b s1 h
    unfold _shouldMock at h
    cases hID : _getNormalizedModuleID (fuel+1) E currPath moduleName with
    | error e1 =>
      rw [hID] at h
      dsimp only at h
      injection h with h1
      injection h1 with he hs
      subst he
      obtain ⟨hmp, hdisj⟩ :=
        getNormalizedModuleID_error (fuel+1) E currPath moduleName _ hID
      obtain ⟨hJS, hrs⟩ :=
        moduleNameToPath_error_exhausted fuel E currPath moduleName _ hmp
      refine ⟨hJS, hrs, ?_⟩
      rcases hdisj with hpb | ⟨_, hmm⟩
      · exact Or.inl hpb
      · exact Or.inr hmm
    | ok mid =>
      rw [hID] at h
      dsimp only at h
      cases hov : alLookup s.explicitShouldMock mid with
      | some b0 =>
        rw [hov] at h
        exact Except.noConfusion h
      | none =>
        rw [hov] at h
        dsimp only at h
        by_cases hcore : E.host.isCore moduleName = true
        · rw [if_pos hcore] at h
          exact Except.noConfusion h
        · rw [if_neg hcore] at h
          by_cases hauto : s.shouldAutoMock = true
          · rw [if_pos hauto] at h
            cases hcache : alLookup s.configShouldMockModuleNames moduleName with
            | some b1 =>
              rw [hcache] at h
              exact Except.noConfusion h
            | none =>
              rw [hcache] at h
              dsimp only at h
              by_cases hpat : (!E.config.unmockedModulePathPatterns.isEmpty) = true
              · rw [if_pos hpat] at h
                cases hmp : _moduleNameToPathFuel (fuel+1) E currPath moduleName with
                | error e1 =>
                  rw [hmp] at h
                  dsimp only at h
                  by_cases hmmr : (_getResource E "JSMock" moduleName).isSome = true
                  · rw [if_pos hmmr] at h
                    exact Except.noConfusion h
                  · rw [if_neg hmmr] at h
                    injection h with h1
                    injection h1 with he hs
                    subst he
                    obtain ⟨hJS, hrs⟩ :=
                      moduleNameToPath_error_exhausted fuel E currPath moduleName _ hmp
                    refine ⟨hJS, hrs, Or.inr ?_⟩
                    cases hx : _getResource E "JSMock" moduleName with
                    | none => rfl
                    | some r =>
                      rw [hx] at hmmr
                      exact absurd rfl hmmr
                | ok mp =>
                  rw [hmp] at h
                  dsimp only at h
                  by_cases hv : (strIndexOf mp E.host.vendorPath == 0) = true
                  · rw [if_pos hv] at h
                    exact Except.noConfusion h
                  · rw [if_neg hv] at h
                    cases hfind : E.config.unmockedModulePathPatterns.find?
                        (fun unmockRegExp => E.host.regexTest unmockRegExp mp ||
                          E.host.regexTest unmockRegExp (E.host.realpathSync mp)) with
                    | some u =>
                      rw [hfind] at h
                      exact Except.noConfusion h
                    | none =>
                      rw [hfind] at h
                      exact Except.noConfusion h
              · rw [if_neg hpat] at h
                exact Except.noConfusion h
          · rw [if_neg hauto] at h
            exact Except.noConfusion h
  · intro mid e hid hov hcore hauto hcache hpat hmp
    constructor
    · intro hmmr
      simp [_shouldMock, hid, hov, hcore, hauto, hcache, hpat, hmp, hmmr, withCacheTrue]
    · intro hmmr
      simp [_shouldMock, hid, hov, hcore, hauto, hcache, hpat, hmp, hmmr, withCacheTrue]
  · intro e hpb hcore hmp
    have hid : _getNormalizedModuleID (fuel+1) E currPath moduleName = Except.error e := by
      simp [_getNormalizedModuleID, hcore, hpb, hmp]
    simp [_shouldMock, hid]

/-- The standalone manual mock of the C8 scenario: `ghost` has a manual mock
but no real module anywhere. -/
def mmResC8 : Resource := { type := "JSMock", id := "ghost", path := "/mocks/ghost.js" }

def rmC8 : ResourceMap :=
  { getResource := fun t n => if t == "JSMock" && n == "ghost" then some mmResC8 else none,
    getResourceByPath := fun _ => none }

def envC8 : Env :=
  { host := {}, rm := rmC8, config := { unmockedModulePathPatterns := ["x"] } }

/-- The C8 scenario without the manual mock: `ghost` exists nowhere. -/
def envC8b : Env :=
  { host := {}, rm := rmEmpty, config := { unmockedModulePathPatterns := ["x"] } }

/-- The state after the C8 policy lookup wrote the mock-true cache entry. -/
def sC8cached : LoaderState := { configShouldMockModuleNames := [("ghost", true)] }

/-- The CSS stub module installed by the C8 name mapping. -/
def stubResC8 : Resource := { type := "JS", id := "cssStub", path := "/proj/cssStub.js" }

def rmC8c : ResourceMap :=
  { getResource := fun t n => if t == "JS" && n == "cssStub" then some stubResC8 else none,
    getResourceByPath := fun _ => none }

/-- The regex semantics of the C8 mapping: `css$` matches names ending in
`.css`. -/
def regexTestC8 : String → String → Bool := fun p s => p == "css$" && strEndsWith s ".css"

def cfgC8c : Config :=
  { unmockedModulePathPatterns := ["x"], moduleNameMapper := [("css$", "cssStub")] }

/-- The C8 scenario with a name mapping whose pattern matches a path-form
request. -/
def envC8c : Env := { host := { regexTest := regexTestC8 }, rm := rmC8c, config := cfgC8c }

/-- C8 counterexample: with a `moduleNameMapper` pattern matching the
path-form request `./foo.css`, a manual mock exists for the name — the
missed JSMock lookup returns the mapped stub resource — yet `_shouldMock`
still fails with module-not-found, because the ModuleID normalization throws
before the manual-mock swallow of the policy decision is reached. This
refutes the claim that resolution fails with module-not-found only when no
manual mock exists for the name. -/
theorem shouldMock_throws_despite_mapped_mock :
    _getResource envC8c "JSMock" "./foo.css" = some stubResC8 ∧
    _shouldMock 2 envC8c ({} : LoaderState) "/test/t.js" "./foo.css" =
      Except.error (JsError.cannotFindModule "./foo.css" "/test/t.js", ({} : LoaderState)) :=
  ⟨rfl, rfl⟩

/-- C8 witness: with the manual mock present (non-path-form request), the
failed resolution is swallowed and the decision is mock; with no manual
mock, the policy lookup propagates the module-not-found error and the
theorem recovers that every resolution strategy was exhausted; and for the
path-form request with a mapped mock, the error still propagates. -/
theorem shouldMock_error_spec_witness :
    _shouldMock 2 envC8 ({} : LoaderState) "/test/t.js" "ghost" =
        Except.ok (true, sC8cached) ∧
      (_getResource envC8b "JS" "ghost" = none ∧
       envC8b.host.resolveSync (dirname "/test/t.js") "ghost" = none ∧
       (isPathBasedModuleName "ghost" = true ∨
        _getResource envC8b "JSMock" "ghost" = none)) ∧
      _shouldMock 2 envC8c ({} : LoaderState) "/test/t.js" "./foo.css" =
        Except.error (JsError.cannotFindModule "./foo.css" "/test/t.js",
          ({} : LoaderState)) := by
  have hswallow := ((shouldMock_error_spec 1 envC8 {} "/test/t.js" "ghost").2.1
    "user:null:/mocks/ghost.js"
    (JsError.cannotFindModule "ghost" "/test/t.js") rfl rfl rfl rfl rfl rfl rfl).1 rfl
  have hexhaust := (shouldMock_error_spec 1 envC8b {} "/test/t.js" "ghost").1
    "ghost" "/test/t.js" {} rfl
  have hpathform := (shouldMock_error_spec 1 envC8c {} "/test/t.js" "./foo.css").2.2
    (JsError.cannotFindModule "./foo.css" "/test/t.js") rfl rfl rfl
  exact ⟨hswallow.trans rfl, hexhaust, hpathform⟩
